import Mathlib

/-!
Verification of the subscription payment coordinator `SubDao`
(`internal/service/dao.go`) of favor-dao-backend.

The Go function is shallowly embedded as a pure function from an
environment `Env` — recording the outcome of every external call the
function makes (order lookup, order creation, notification-bus
subscription, payment initiation, transaction-id persistence, the wait
outcome, dao/user lookups and user-notifier pushes) — to a result
(possibly a runtime panic from a nil-pointer dereference) together with
a trace of the externally visible events, in program order.

Modelling conventions:
- Go `error` values are `Option String` (`none` = nil error).
- Go `float64` arithmetic on integer prices is modelled with exact
  rationals `ℚ`; a community's `Price` string holds an integer and is
  modelled as a `Nat`.
- A Go nil-pointer dereference (panic) is `Except.error msg`.
- The Go zero value of the named return `status` is modelled as
  `DaoSubscribeT.created`.
- The deferred `notify.Cancel()` appends a `busCancel` event whenever the
  captured `notify` variable is non-nil at exit, on panics too (Go runs
  deferred functions during panicking).
-/

deriving instance DecidableEq for Except

namespace FavorDao

/-- Subscription order status (`model.DaoSubscribeT`):
`created → submit → {success, failed, cancelled}`; `submit` is the only
non-terminal status an existing order can be resumed in. -/
inductive DaoSubscribeT where
  | created
  | submit
  | success
  | failed
  | cancelled
  deriving DecidableEq, Repr

/-- The fields of `model.User` that `SubDao` reads: `ID.Hex()`,
`Nickname`, `Address`. -/
structure User where
  id : String
  nickname : String
  address : String
  deriving DecidableEq, Repr

/-- The fields of `model.Dao` that `SubDao` reads: owner `Address`,
`Name`, and the integer `Price` (milli-units, stored as a string in Go). -/
structure Dao where
  address : String
  name : String
  price : Nat
  deriving DecidableEq, Repr

/-- The fields of an existing `model.DaoSubscribe` order that `SubDao`
reads: `ID.Hex()`, `TxID`, `Status`. -/
structure DaoSubscribe where
  idHex : String
  txID : String
  status : DaoSubscribeT
  deriving DecidableEq, Repr

/-- Outcome of `sub.FindOne(ctx, …, {address, dao_id})`:
an existing order, `mongo.ErrNoDocuments`, or another database error. -/
inductive FindResult where
  | found (sub : DaoSubscribe)
  | noDocuments
  | dbError (msg : String)
  deriving DecidableEq, Repr

/-- Which arm of the `select` fires in the wait phase: caller
cancellation (`ctx.Done()`) or a bus delivery of a status value. -/
inductive WaitOutcome where
  | cancelled
  | delivered (status : DaoSubscribeT)
  deriving DecidableEq, Repr

/-- The three `fmt.Sprintf` notification payloads, with their format
arguments kept structured. -/
inductive NotifyContent where
  | subscriberPaid (daoName : String) (amount : ℚ)
  | ownerReceived (nickname address : String) (amount : ℚ)
  | ownerSubscribed (nickname address : String)
  deriving DecidableEq, Repr

/-- Externally visible events of one `SubDao` call, in program order. -/
inductive Event where
  | findOne
  | createOrder (orderID : String)
  | busSubscribe (key : String) (ok : Bool)
  | pay (fromObject toSubject : String) (amount : ℚ) (bindOrder : String)
  | updateTxID (orderID txID : String)
  | logError (tag : String)
  | waitEnter
  | getDaoEv (daoID : String)
  | getUser (address : String)
  | notifyEv (recipient : String) (content : NotifyContent) (ok : Bool)
  | busCancel
  deriving DecidableEq, Repr

/-- Environment: the outcome of every external call a single `SubDao`
execution can make. -/
structure Env where
  /-- Outcome of `sub.FindOne` on the (address, daoID) pair. -/
  findOne : FindResult
  /-- Error of `ds.SubscribeDAO` failing before it invokes the callback. -/
  createPreErr : Option String
  /-- the order id passed to the creation callback. -/
  newOrderID : String
  /-- the dao document passed to the creation callback. -/
  createDao : Dao
  /-- error of `pubsub.NewSubscribe(orderID)` in the creation callback. -/
  newSubscribeCreate : Option String
  /-- Outcome of `point.Pay`: a transaction id, or an error. -/
  payResult : Except String String
  /-- error of `ds.UpdateSubscribeDAOTxID(oid, txID)`. -/
  updateTxIDErr : Option String
  /-- error of `pubsub.NewSubscribe(oid)` on the existing-order path
  (discarded by the code: `notify, _ = …`). -/
  newSubscribeResume : Option String
  /-- Value of `ctx.Err()` when the context is done. -/
  ctxErr : String
  /-- which arm of the wait-phase `select` fires. -/
  wait : WaitOutcome
  /-- Outcome of `ds.GetDao` in the delivery branch. -/
  getDao : Except String Dao
  /-- Outcome of `ds.GetUserByAddress`, by address. -/
  getUserByAddress : String → Except String User
  /-- error of the first `notifyGateway.Notify` (subscriber payment message). -/
  notifyErr1 : Option String
  /-- error of the second `notifyGateway.Notify` (owner payment message). -/
  notifyErr2 : Option String
  /-- error of the third `notifyGateway.Notify` (owner subscription message). -/
  notifyErr3 : Option String

/-- The `(txID, status, err)` return of `SubDao`. -/
structure SubDaoResult where
  txID : String
  status : DaoSubscribeT
  err : Option String
  deriving DecidableEq, Repr

/-- Full observable outcome of a `SubDao` call: the return triple (or a
panic message), and the event trace. -/
structure SubDaoOut where
  result : Except String SubDaoResult
  trace : List Event
  deriving DecidableEq, Repr

/-- The delivery branch (`case val := <-notify.Ch`) followed by the final
`if err == nil` owner-notification block.  Inside the `case` block every
`err` is shadowed by `:=`, so none of these errors reaches the named
return; only the explicit `return txID, status, err` after the failed
`ds.GetUserByAddress(toAddress)` surfaces an error.  A lookup whose error
is discarded leaves a nil pointer that is dereferenced where the source
uses the value, which panics. -/
def deliveryBranch (gd : Except String Dao) (gu : String → Except String User)
    (n1 n2 n3 : Option String) (daoID address txID toAddress : String)
    (price : ℚ) (st : DaoSubscribeT) :
    Except String SubDaoResult × List Event :=
  match gd with
  | .error _ => (.error "nil dereference: dao", [.getDaoEv daoID])
  | .ok d =>
    let ev1 : List Event := [.getDaoEv daoID, .getUser d.address, .getUser address]
    match gu address with
    | .error _ => (.error "nil dereference: user", ev1)
    | .ok user =>
      let ev2 := ev1 ++
        [.notifyEv user.id (.subscriberPaid d.name price) (n1 = none)]
      match gu d.address with
      | .error _ => (.error "nil dereference: owner user", ev2)
      | .ok a =>
        let ev3 := ev2 ++
          [.notifyEv a.id (.ownerReceived user.nickname user.address price)
            (n2 = none)]
        let ev4 := ev3 ++ [.getUser toAddress]
        match gu toAddress with
        | .error e => (.ok ⟨txID, st, some e⟩, ev4 ++ [.logError "get user"])
        | .ok toUser =>
          match gu address with
          | .error _ => (.error "nil dereference: fromUser", ev4 ++ [.getUser address])
          | .ok fromUser =>
            (.ok ⟨txID, st, none⟩,
              ev4 ++ [.getUser address,
                .notifyEv toUser.id
                  (.ownerSubscribed fromUser.nickname fromUser.address)
                  (n3 = none)])

/-- The wait phase (`select`).  The `select` statement evaluates
`notify.Ch` before blocking, so a nil `notify` panics here regardless of
the context's state. -/
def waitPhase (wo : WaitOutcome) (ctxErr : String)
    (gd : Except String Dao) (gu : String → Except String User)
    (n1 n2 n3 : Option String) (daoID address txID : String)
    (status0 : DaoSubscribeT) (toAddress : String) (price : ℚ)
    (notifyPresent : Bool) : Except String SubDaoResult × List Event :=
  match notifyPresent with
  | false => (.error "nil dereference: notify", [.waitEnter])
  | true =>
    match wo with
    | .cancelled => (.ok ⟨txID, status0, some ctxErr⟩, [.waitEnter])
    | .delivered st =>
      let r := deliveryBranch gd gu n1 n2 n3 daoID address txID toAddress price st
      (r.1, .waitEnter :: r.2)

/-- Body of `SubDao` before the deferred cancel: result, trace, and whether the
captured `notify` variable is non-nil at exit. -/
def subDaoCore (env : Env) (daoID address : String) :
    (Except String SubDaoResult × List Event) × Bool :=
  match env.findOne with
  | .dbError e =>
    ((.ok ⟨"", .created, some e⟩, [.findOne]), false)
  | .found sub =>
    if sub.status ≠ .submit then
      ((.ok ⟨sub.txID, sub.status, none⟩, [.findOne]), false)
    else
      let subOk := env.newSubscribeResume = none
      let w := waitPhase env.wait env.ctxErr env.getDao env.getUserByAddress
        env.notifyErr1 env.notifyErr2 env.notifyErr3 daoID address sub.txID
        sub.status "" 0 subOk
      ((w.1, .findOne :: .busSubscribe sub.idHex subOk :: w.2), subOk)
  | .noDocuments =>
    match env.createPreErr with
    | some e => ((.ok ⟨"", .created, some e⟩, [.findOne]), false)
    | none =>
      let oid := env.newOrderID
      match env.newSubscribeCreate with
      | some e =>
        ((.ok ⟨"", .created, some e⟩,
          [.findOne, .createOrder oid, .busSubscribe oid false]), false)
      | none =>
        let dao := env.createDao
        let toAddress := dao.address
        let price : ℚ := (dao.price : ℚ) / 1000
        match env.payResult with
        | .error e =>
          ((.ok ⟨"", .created, some e⟩,
            [.findOne, .createOrder oid, .busSubscribe oid true,
             .pay address toAddress (dao.price : ℚ) oid]), true)
        | .ok tx =>
          let upd : List Event :=
            match env.updateTxIDErr with
            | some _ => [.updateTxID oid tx, .logError "UpdateSubscribeDAOTxID"]
            | none => [.updateTxID oid tx]
          let w := waitPhase env.wait env.ctxErr env.getDao env.getUserByAddress
            env.notifyErr1 env.notifyErr2 env.notifyErr3 daoID address tx
            .created toAddress price true
          ((w.1,
            .findOne :: .createOrder oid :: .busSubscribe oid true ::
              .pay address toAddress (dao.price : ℚ) oid :: (upd ++ w.2)), true)

/-- The full `SubDao` call: the deferred function cancels the bus
subscription whenever `notify != nil`, on every exit path including
panics. -/
def subDao (env : Env) (daoID address : String) : SubDaoOut :=
  let c := subDaoCore env daoID address
  { result := c.1.1
    trace := c.1.2 ++ (if c.2 then [.busCancel] else []) }

/-- The amount carried by a payment-initiation event, if any. -/
def payAmount : Event → Option ℚ
  | .pay _ _ amt _ => some amt
  | _ => none

/-- Events that write to the order store. -/
def isOrderWrite : Event → Bool
  | .createOrder _ => true
  | .updateTxID _ _ => true
  | _ => false

/-- A baseline concrete environment matching the spec's example scenario:
price 10000, first-time subscribe, payment returns `tx-1`, delivery of
`success`, every user lookup succeeding except for the empty address. -/
def env0 : Env where
  findOne := .noDocuments
  createPreErr := none
  newOrderID := "O"
  createDao := ⟨"B", "C", 10000⟩
  newSubscribeCreate := none
  payResult := .ok "tx-1"
  updateTxIDErr := none
  newSubscribeResume := none
  ctxErr := "context canceled"
  wait := .delivered .success
  getDao := .ok ⟨"B", "C", 10000⟩
  getUserByAddress := fun s =>
    if s = "" then .error "no user" else .ok ⟨"id-" ++ s, "nick-" ++ s, s⟩
  notifyErr1 := none
  notifyErr2 := none
  notifyErr3 := none

example :
    (subDao env0 "D" "A").result = .ok ⟨"tx-1", .success, none⟩ := by decide

example :
    (subDao env0 "D" "A").trace.filterMap payAmount = [(10000 : ℚ)] := by decide

/-- Variant of `env0` with the wait phase ended by cancellation (shortens the trace). -/
def envC1 : Env := { env0 with wait := .cancelled }

/-- Variant of `env0` with an existing `submit` order for the pair, i.e. the resume
path. -/
def envResume : Env :=
  { env0 with findOne := .found ⟨"O", "tx-1", .submit⟩ }

/-- Variant of `env0` with an existing terminal (`success`) order for the pair. -/
def envTerminal : Env :=
  { env0 with findOne := .found ⟨"O", "tx-1", .success⟩ }

/-- C1, counterexample: on a first-time Subscribe for a community with
configured price 10000, the Payment Initiator is invoked with amount
10000 — the raw configured integer (`Amount: dao.Price`) — and not with
`price / 1000 = 10` as the claim states. -/
theorem C1_counterexample :
    (subDao envC1 "D" "A").trace.filterMap payAmount = [(10000 : ℚ)] ∧
    ((10000 : ℚ) ≠ 10000 / 1000) := ⟨by decide, by norm_num⟩

/-- On the no-existing-order path with a successful bus subscription, the
trace starts with lookup, order creation, bus subscription, and the
payment initiation carrying the raw configured price. -/
theorem create_trace_prefix (env : Env) (daoID address : String)
    (h1 : env.findOne = .noDocuments) (h2 : env.createPreErr = none)
    (h3 : env.newSubscribeCreate = none) :
    ∃ rest, (subDao env daoID address).trace =
      .findOne :: .createOrder env.newOrderID ::
      .busSubscribe env.newOrderID true ::
      .pay address env.createDao.address ((env.createDao.price : ℚ))
        env.newOrderID :: rest := by
  simp only [subDao, subDaoCore, h1, h2, h3]
  cases hp : env.payResult with
  | error e => exact ⟨[.busCancel], by simp⟩
  | ok tx => exact ⟨_, by simp only [List.cons_append]; rfl⟩

/-- C1, amended: on every first-time Subscribe call that reaches payment
initiation, the Payment Initiator is invoked with amount equal to the
community's raw configured integer price (e.g. 10000); the divided value
`price / 1000` is used only in the post-completion notification
messages. -/
theorem C1_amended_pay_raw_price (env : Env) (daoID address : String)
    (h1 : env.findOne = .noDocuments) (h2 : env.createPreErr = none)
    (h3 : env.newSubscribeCreate = none) :
    ∃ rest, (subDao env daoID address).trace =
      .findOne :: .createOrder env.newOrderID ::
      .busSubscribe env.newOrderID true ::
      .pay address env.createDao.address ((env.createDao.price : ℚ))
        env.newOrderID :: rest :=
  create_trace_prefix env daoID address h1 h2 h3

/-- Witness for the amended C1 at the spec's example scenario. -/
theorem C1_amended_witness :
    ∃ rest, (subDao env0 "D" "A").trace =
      .findOne :: .createOrder "O" :: .busSubscribe "O" true ::
      .pay "A" "B" (10000 : ℚ) "O" :: rest :=
  C1_amended_pay_raw_price env0 "D" "A" rfl rfl rfl

/-- C3: a Subscribe call that finds an existing order in a terminal
status returns immediately with the stored transaction ID and status and
no error; the trace is the lookup alone — no bus subscription, no payment
initiation, no wait phase. -/
theorem C3_terminal_short_circuit (env : Env) (daoID address : String)
    (sub : DaoSubscribe) (h1 : env.findOne = .found sub)
    (h2 : sub.status ≠ .submit) :
    subDao env daoID address =
      { result := .ok ⟨sub.txID, sub.status, none⟩, trace := [.findOne] } := by
  simp [subDao, subDaoCore, h1, h2]

/-- Witness for C3 at a concrete terminal (`success`) order. -/
theorem C3_witness :
    subDao envTerminal "D" "A" =
      { result := .ok ⟨"tx-1", .success, none⟩, trace := [.findOne] } :=
  C3_terminal_short_circuit envTerminal "D" "A" ⟨"O", "tx-1", .success⟩ rfl
    (by decide)

/-- C5: on the no-existing-order path, the Notification Bus subscription
(keyed by the new order ID) appears strictly before the payment
initiation in the event trace. -/
theorem C5_subscribe_before_pay (env : Env) (daoID address : String)
    (h1 : env.findOne = .noDocuments) (h2 : env.createPreErr = none)
    (h3 : env.newSubscribeCreate = none) :
    ∃ i j : ℕ, i < j ∧
      (subDao env daoID address).trace.get? i =
        some (.busSubscribe env.newOrderID true) ∧
      ∃ f t amt b,
        (subDao env daoID address).trace.get? j = some (.pay f t amt b) := by
  obtain ⟨rest, hr⟩ := create_trace_prefix env daoID address h1 h2 h3
  exact ⟨2, 3, by norm_num, by rw [hr]; rfl,
    address, env.createDao.address, (env.createDao.price : ℚ), env.newOrderID,
    by rw [hr]; rfl⟩

/-- Witness for C5 at the spec's example scenario. -/
theorem C5_witness :
    ∃ i j : ℕ, i < j ∧
      (subDao env0 "D" "A").trace.get? i = some (.busSubscribe "O" true) ∧
      ∃ f t amt b,
        (subDao env0 "D" "A").trace.get? j = some (.pay f t amt b) :=
  C5_subscribe_before_pay env0 "D" "A" rfl rfl rfl

/-- Events that `SubDao` can only emit before entering the wait phase. -/
def isPreWaitEvent : Event → Bool
  | .findOne => true
  | .createOrder _ => true
  | .busSubscribe _ _ => true
  | .pay _ _ _ _ => true
  | .updateTxID _ _ => true
  | _ => false

/-- Every event emitted by the delivery branch is a post-wait event: no
order creation, no payment initiation, no bus subscription, no
transaction-id write. -/
theorem deliveryBranch_events (gd : Except String Dao)
    (gu : String → Except String User) (n1 n2 n3 : Option String)
    (daoID address txID toAddress : String) (price : ℚ)
    (st : DaoSubscribeT) :
    ∀ e ∈ (deliveryBranch gd gu n1 n2 n3 daoID address txID toAddress
      price st).2, isPreWaitEvent e = false := by
  unfold deliveryBranch
  rcases gd with e1 | d
  · intro e he; simp at he; subst he; rfl
  · rcases h2 : gu address with e2 | u <;> simp only [h2]
    · intro e he; simp at he
      rcases he with rfl | rfl | rfl <;> rfl
    · rcases h3 : gu d.address with e3 | a <;> simp only [h3]
      · intro e he; simp at he
        rcases he with rfl | rfl | rfl | rfl <;> rfl
      · rcases h4 : gu toAddress with e4 | tu <;> simp only [h4]
        · intro e he; simp at he
          rcases he with rfl | rfl | rfl | rfl | rfl | rfl | rfl <;> rfl
        · intro e he; simp at he
          rcases he with rfl | rfl | rfl | rfl | rfl | rfl | rfl | rfl <;> rfl

/-- On the resume path the trace is the lookup, one bus subscription for
the stored order id, the wait phase, and the deferred cancel. -/
theorem resume_trace (env : Env) (daoID address : String)
    (sub : DaoSubscribe) (h1 : env.findOne = .found sub)
    (h2 : sub.status = .submit) (h3 : env.newSubscribeResume = none) :
    (subDao env daoID address).trace =
      .findOne :: .busSubscribe sub.idHex true :: .waitEnter ::
      ((match env.wait with
        | .cancelled => []
        | .delivered st =>
          (deliveryBranch env.getDao env.getUserByAddress env.notifyErr1
            env.notifyErr2 env.notifyErr3 daoID address sub.txID "" 0 st).2)
        ++ [.busCancel]) := by
  simp only [subDao, subDaoCore, h1, h2, h3]
  cases hw : env.wait with
  | cancelled => simp [waitPhase]
  | delivered st => simp [waitPhase]

/-- C7: a Subscribe call that finds an existing `Submitted` order
attaches a new bus subscription keyed by that order's id and proceeds to
the wait phase; the whole trace contains no order creation and no payment
initiation. -/
theorem C7_resume_attaches_waiter (env : Env) (daoID address : String)
    (sub : DaoSubscribe) (h1 : env.findOne = .found sub)
    (h2 : sub.status = .submit) (h3 : env.newSubscribeResume = none) :
    (∃ rest, (subDao env daoID address).trace =
      .findOne :: .busSubscribe sub.idHex true :: .waitEnter :: rest) ∧
    (∀ o, Event.createOrder o ∉ (subDao env daoID address).trace) ∧
    (∀ f t amt b, Event.pay f t amt b ∉ (subDao env daoID address).trace) := by
  have ht := resume_trace env daoID address sub h1 h2 h3
  refine ⟨⟨_, ht⟩, ?_, ?_⟩
  · intro o hmem
    rw [ht] at hmem
    cases hw : env.wait with
    | cancelled => rw [hw] at hmem; simp at hmem
    | delivered st =>
      rw [hw] at hmem; simp at hmem
      simpa [isPreWaitEvent] using
        deliveryBranch_events env.getDao env.getUserByAddress env.notifyErr1
          env.notifyErr2 env.notifyErr3 daoID address sub.txID "" 0 st _ hmem
  · intro f t amt b hmem
    rw [ht] at hmem
    cases hw : env.wait with
    | cancelled => rw [hw] at hmem; simp at hmem
    | delivered st =>
      rw [hw] at hmem; simp at hmem
      simpa [isPreWaitEvent] using
        deliveryBranch_events env.getDao env.getUserByAddress env.notifyErr1
          env.notifyErr2 env.notifyErr3 daoID address sub.txID "" 0 st _ hmem

/-- Witness for C7 at a concrete `Submitted` order. -/
theorem C7_witness :
    (∃ rest, (subDao envResume "D" "A").trace =
      .findOne :: .busSubscribe "O" true :: .waitEnter :: rest) ∧
    (∀ o, Event.createOrder o ∉ (subDao envResume "D" "A").trace) ∧
    (∀ f t amt b, Event.pay f t amt b ∉ (subDao envResume "D" "A").trace) :=
  C7_resume_attaches_waiter envResume "D" "A" ⟨"O", "tx-1", .submit⟩ rfl rfl rfl

/-- C4: when the wait phase ends by caller cancellation, the call returns
the context's cancellation error and the only events after entering the
wait are the deferred bus cancel — no order write. -/
theorem C4_cancellation_leaves_order (env : Env) (daoID address : String)
    (hw : env.wait = .cancelled)
    (hp : (env.findOne = .noDocuments ∧ env.createPreErr = none ∧
            env.newSubscribeCreate = none ∧ ∃ tx, env.payResult = .ok tx) ∨
          (∃ sub, env.findOne = .found sub ∧ sub.status = .submit ∧
            env.newSubscribeResume = none)) :
    ∃ r pre, (subDao env daoID address).result = .ok r ∧
      r.err = some env.ctxErr ∧
      (subDao env daoID address).trace = pre ++ [.waitEnter, .busCancel] ∧
      ∀ ev ∈ ([Event.waitEnter, Event.busCancel] : List Event),
        isOrderWrite ev = false := by
  rcases hp with ⟨h1, h2, h3, tx, h4⟩ | ⟨sub, h1, h2, h3⟩
  · refine ⟨⟨tx, .created, some env.ctxErr⟩,
      [.findOne, .createOrder env.newOrderID, .busSubscribe env.newOrderID true,
       .pay address env.createDao.address ((env.createDao.price : ℚ))
         env.newOrderID] ++
        (match env.updateTxIDErr with
          | some _ => [Event.updateTxID env.newOrderID tx,
              Event.logError "UpdateSubscribeDAOTxID"]
          | none => [Event.updateTxID env.newOrderID tx]), ?_, rfl, ?_,
      by decide⟩
    · simp [subDao, subDaoCore, waitPhase, h1, h2, h3, h4, hw]
    · cases hu : env.updateTxIDErr <;>
        simp [subDao, subDaoCore, waitPhase, h1, h2, h3, h4, hw, hu]
  · refine ⟨⟨sub.txID, .submit, some env.ctxErr⟩,
      [.findOne, .busSubscribe sub.idHex true], ?_, rfl, ?_, by decide⟩
    · simp [subDao, subDaoCore, waitPhase, h1, h2, h3, hw]
    · simp [subDao, subDaoCore, waitPhase, h1, h2, h3, hw]

/-- Witness for C4: cancellation while waiting on a resumed order. -/
theorem C4_witness :
    ∃ r pre,
      (subDao { envResume with wait := .cancelled } "D" "A").result = .ok r ∧
      r.err = some ("context canceled") ∧
      (subDao { envResume with wait := .cancelled } "D" "A").trace =
        pre ++ [.waitEnter, .busCancel] ∧
      ∀ ev ∈ ([Event.waitEnter, Event.busCancel] : List Event),
        isOrderWrite ev = false :=
  C4_cancellation_leaves_order { envResume with wait := .cancelled } "D" "A"
    rfl (Or.inr ⟨⟨"O", "tx-1", .submit⟩, rfl, rfl, rfl⟩)

/-- The head of the wait-phase trace is always the wait entry. -/
theorem waitPhase_trace_head (wo : WaitOutcome) (ctxErr : String)
    (gd : Except String Dao) (gu : String → Except String User)
    (n1 n2 n3 : Option String) (daoID address txID : String)
    (status0 : DaoSubscribeT) (toAddress : String) (price : ℚ) (np : Bool) :
    ∃ t, (waitPhase wo ctxErr gd gu n1 n2 n3 daoID address txID status0
      toAddress price np).2 = .waitEnter :: t := by
  cases np
  · exact ⟨[], rfl⟩
  · cases wo
    · exact ⟨[], rfl⟩
    · exact ⟨_, rfl⟩

/-- On the create path with successful payment initiation, the returned
triple is exactly the wait-phase result; in particular it does not depend
on the outcome of the transaction-id persistence write. -/
theorem create_pay_ok_result (env : Env) (daoID address tx : String)
    (h1 : env.findOne = .noDocuments) (h2 : env.createPreErr = none)
    (h3 : env.newSubscribeCreate = none) (h4 : env.payResult = .ok tx) :
    (subDao env daoID address).result =
      (waitPhase env.wait env.ctxErr env.getDao env.getUserByAddress
        env.notifyErr1 env.notifyErr2 env.notifyErr3 daoID address tx
        .created env.createDao.address ((env.createDao.price : ℚ) / 1000)
        true).1 := by
  simp only [subDao, subDaoCore, h1, h2, h3, h4]

/-- C8: if persisting the transaction id after successful initiation
fails, the failure is logged, the call still proceeds to the wait phase,
and the returned triple is the same as if the write had succeeded. -/
theorem C8_txid_persist_failure_nonfatal (env : Env)
    (daoID address tx e : String) (h1 : env.findOne = .noDocuments)
    (h2 : env.createPreErr = none) (h3 : env.newSubscribeCreate = none)
    (h4 : env.payResult = .ok tx) (h5 : env.updateTxIDErr = some e) :
    (subDao env daoID address).result =
      (subDao { env with updateTxIDErr := none } daoID address).result ∧
    Event.logError "UpdateSubscribeDAOTxID" ∈ (subDao env daoID address).trace ∧
    Event.waitEnter ∈ (subDao env daoID address).trace := by
  refine ⟨?_, ?_, ?_⟩
  · rw [create_pay_ok_result env daoID address tx h1 h2 h3 h4,
      create_pay_ok_result { env with updateTxIDErr := none } daoID address tx
        h1 h2 h3 h4]
  · simp [subDao, subDaoCore, h1, h2, h3, h4, h5]
  · obtain ⟨t, htw⟩ := waitPhase_trace_head env.wait env.ctxErr env.getDao
      env.getUserByAddress env.notifyErr1 env.notifyErr2 env.notifyErr3
      daoID address tx .created env.createDao.address
      ((env.createDao.price : ℚ) / 1000) true
    simp [subDao, subDaoCore, h1, h2, h3, h4, h5, htw]

/-- Witness for C8 at a concrete failing persistence write. -/
theorem C8_witness :
    (subDao { env0 with updateTxIDErr := some "boom" } "D" "A").result =
      (subDao { { env0 with updateTxIDErr := some "boom" } with
        updateTxIDErr := none } "D" "A").result ∧
    Event.logError "UpdateSubscribeDAOTxID" ∈
      (subDao { env0 with updateTxIDErr := some "boom" } "D" "A").trace ∧
    Event.waitEnter ∈
      (subDao { env0 with updateTxIDErr := some "boom" } "D" "A").trace :=
  C8_txid_persist_failure_nonfatal { env0 with updateTxIDErr := some "boom" }
    "D" "A" "tx-1" "boom" rfl rfl rfl rfl rfl

/-- C2, counterexample: a Subscribe call that observes a completion
delivery can return a non-nil error from post-completion dispatch — when
the owner-identity lookup in the final notification block fails, the code
executes `return txID, status, err` with that error (here the resume path,
where the looked-up owner address is `""`); the claim says no error is
ever surfaced. -/
theorem C2_counterexample :
    envResume.wait = .delivered .success ∧
    (subDao envResume "D" "A").result =
      .ok ⟨"tx-1", .success, some "no user"⟩ ∧
    (some "no user" ≠ (none : Option String)) := by decide

/-- C2, amended: User Notifier push failures are logged only and never
surfaced, and the identity-lookup errors inside the delivery branch are
discarded; but a failure of the owner lookup in the final dispatch block
is returned as the call's error.  When every identity lookup succeeds,
the call returns the delivered status and transaction ID with no error
even if the User Notifier always fails. -/
theorem C2_amended_notifier_nonfatal (env : Env) (daoID address tx : String)
    (st : DaoSubscribeT) (d : Dao) (a u w : User)
    (h1 : env.findOne = .noDocuments) (h2 : env.createPreErr = none)
    (h3 : env.newSubscribeCreate = none) (h4 : env.payResult = .ok tx)
    (h5 : env.wait = .delivered st) (h6 : env.getDao = .ok d)
    (h7 : env.getUserByAddress address = .ok u)
    (h8 : env.getUserByAddress d.address = .ok a)
    (h9 : env.getUserByAddress env.createDao.address = .ok w) :
    (subDao env daoID address).result = .ok ⟨tx, st, none⟩ := by
  simp only [subDao, subDaoCore, h1, h2, h3, h4]
  simp [waitPhase, deliveryBranch, h5, h6, h7, h8, h9]

/-- Variant of `env0` with a User Notifier that always fails. -/
def envNotifierDown : Env :=
  { env0 with
    notifyErr1 := some "push failed"
    notifyErr2 := some "push failed"
    notifyErr3 := some "push failed" }

/-- Witness for the amended C2: the notifier always fails, yet the call
returns the delivered status and transaction id with no error. -/
theorem C2_amended_witness :
    (subDao envNotifierDown "D" "A").result = .ok ⟨"tx-1", .success, none⟩ :=
  C2_amended_notifier_nonfatal envNotifierDown "D" "A" "tx-1" .success
    ⟨"B", "C", 10000⟩ ⟨"id-B", "nick-B", "B"⟩ ⟨"id-A", "nick-A", "A"⟩
    ⟨"id-B", "nick-B", "B"⟩ rfl rfl rfl rfl rfl rfl (by decide) (by decide)
    (by decide)

/-- The delivery branch never produces the wait-phase nil-handle panic:
its own panic messages are distinct. -/
theorem deliveryBranch_no_notify_panic (gd : Except String Dao)
    (gu : String → Except String User) (n1 n2 n3 : Option String)
    (daoID address txID toAddress : String) (price : ℚ)
    (st : DaoSubscribeT) :
    (deliveryBranch gd gu n1 n2 n3 daoID address txID toAddress price
      st).1 ≠ .error "nil dereference: notify" := by
  unfold deliveryBranch
  intro hc
  rcases gd with e1 | d
  · simp at hc
  · rcases h2 : gu address with e2 | u <;> simp only [h2] at hc
    · simp at hc
    · rcases h3 : gu d.address with e3 | a <;> simp only [h3] at hc
      · simp at hc
      · rcases h4 : gu toAddress with e4 | tu <;> simp only [h4] at hc
        · simp at hc
        · simp at hc

/-- C9: on the existing-`Submitted`-order path the error of the bus
subscription is discarded; if that subscription fails the wait phase is
reached with a nil handle and dereferences it (a panic), and this
nil-handle panic cannot occur when the subscription succeeds. -/
theorem C9_nil_handle_panic (env : Env) (daoID address : String)
    (sub : DaoSubscribe) (h1 : env.findOne = .found sub)
    (h2 : sub.status = .submit) :
    (∀ e, env.newSubscribeResume = some e →
      (subDao env daoID address).result = .error "nil dereference: notify") ∧
    (env.newSubscribeResume = none →
      (subDao env daoID address).result ≠
        .error "nil dereference: notify") := by
  constructor
  · intro e h3
    simp [subDao, subDaoCore, waitPhase, h1, h2, h3]
  · intro h3
    simp only [subDao, subDaoCore, h1, h2, h3]
    cases hw : env.wait with
    | cancelled => simp [waitPhase, hw]
    | delivered st =>
      simp only [waitPhase, hw]
      simpa using deliveryBranch_no_notify_panic env.getDao
        env.getUserByAddress env.notifyErr1 env.notifyErr2 env.notifyErr3
        daoID address sub.txID "" 0 st

/-- Witness for C9: a resume-path call whose bus subscription fails
panics in the wait phase. -/
theorem C9_witness :
    (subDao { envResume with newSubscribeResume := some "bus full" }
      "D" "A").result = .error "nil dereference: notify" ∧
    (subDao envResume "D" "A").result ≠
      .error "nil dereference: notify" :=
  ⟨(C9_nil_handle_panic { envResume with newSubscribeResume := some "bus full" }
      "D" "A" ⟨"O", "tx-1", .submit⟩ rfl rfl).1 "bus full" rfl,
   (C9_nil_handle_panic envResume "D" "A" ⟨"O", "tx-1", .submit⟩ rfl rfl).2 rfl⟩

/-- C10: a waiter resumed on an existing `Submitted` order that receives
a completion delivery sends both payment notifications with amount `0`
(the local `price` was never assigned on this path), and the final owner
notification looks up the user for the empty address (the local
`toAddress` was never assigned). -/
theorem C10_resume_zero_price (env : Env) (daoID address : String)
    (sub : DaoSubscribe) (st : DaoSubscribeT) (d : Dao) (a u : User)
    (h1 : env.findOne = .found sub) (h2 : sub.status = .submit)
    (h3 : env.newSubscribeResume = none) (h4 : env.wait = .delivered st)
    (h5 : env.getDao = .ok d) (h6 : env.getUserByAddress address = .ok u)
    (h7 : env.getUserByAddress d.address = .ok a) :
    Event.notifyEv u.id (.subscriberPaid d.name 0) (env.notifyErr1 = none)
      ∈ (subDao env daoID address).trace ∧
    Event.notifyEv a.id (.ownerReceived u.nickname u.address 0)
      (env.notifyErr2 = none) ∈ (subDao env daoID address).trace ∧
    Event.getUser "" ∈ (subDao env daoID address).trace := by
  have ht := resume_trace env daoID address sub h1 h2 h3
  rw [ht, h4]
  simp only [deliveryBranch, h5, h6, h7]
  cases hg : env.getUserByAddress "" with
  | error e => simp [hg]
  | ok tu => simp [hg, h6]

/-- Witness for C10 at a concrete resumed order. -/
theorem C10_witness :
    Event.notifyEv "id-A" (.subscriberPaid "C" 0)
      (envResume.notifyErr1 = none) ∈ (subDao envResume "D" "A").trace ∧
    Event.notifyEv "id-B" (.ownerReceived "nick-A" "A" 0)
      (envResume.notifyErr2 = none) ∈ (subDao envResume "D" "A").trace ∧
    Event.getUser "" ∈ (subDao envResume "D" "A").trace :=
  C10_resume_zero_price envResume "D" "A" ⟨"O", "tx-1", .submit⟩ .success
    ⟨"B", "C", 10000⟩ ⟨"id-B", "nick-B", "B"⟩ ⟨"id-A", "nick-A", "A"⟩
    rfl rfl rfl rfl rfl (by decide) (by decide)

/-- A successful bus subscription forces the captured handle to be
non-nil at exit. -/
theorem busSubscribe_true_handle (env : Env) (daoID address k : String)
    (h : Event.busSubscribe k true ∈ (subDaoCore env daoID address).1.2) :
    (subDaoCore env daoID address).2 = true := by
  rcases h1 : env.findOne with sub | _ | e
  · by_cases h2 : sub.status = .submit
    · cases h3 : env.newSubscribeResume with
      | none => simp [subDaoCore, h1, h2, h3]
      | some e =>
        exfalso
        simp only [subDaoCore, h1, h2, h3] at h
        simp [waitPhase] at h
    · exfalso
      simp [subDaoCore, h1, h2] at h
  · cases h2 : env.createPreErr with
    | some e => exfalso; simp [subDaoCore, h1, h2] at h
    | none =>
      cases h3 : env.newSubscribeCreate with
      | some e => exfalso; simp [subDaoCore, h1, h2, h3] at h
      | none =>
        cases h4 : env.payResult with
        | error e => simp [subDaoCore, h1, h2, h3, h4]
        | ok tx => simp [subDaoCore, h1, h2, h3, h4]
  · exfalso; simp [subDaoCore, h1] at h

/-- C6: whenever a Subscribe call created a bus subscription, the
deferred cancel runs before the call returns — the cancel event is in the
trace on every exit path. -/
theorem C6_cancel_on_every_exit (env : Env) (daoID address k : String)
    (h : Event.busSubscribe k true ∈ (subDao env daoID address).trace) :
    Event.busCancel ∈ (subDao env daoID address).trace := by
  have hcore : Event.busSubscribe k true ∈ (subDaoCore env daoID address).1.2 := by
    simp only [subDao, List.mem_append] at h
    rcases h with h | h
    · exact h
    · exfalso
      rcases hn : (subDaoCore env daoID address).2 <;> rw [hn] at h <;> simp at h
  have hnp := busSubscribe_true_handle env daoID address k hcore
  simp [subDao, hnp]

/-- Witness for C6 at the spec's example scenario. -/
theorem C6_witness : Event.busCancel ∈ (subDao env0 "D" "A").trace :=
  C6_cancel_on_every_exit env0 "D" "A" "O" (by decide)

end FavorDao
